import Mathlib

set_option maxRecDepth 8192

/-!
Verification of the voice-bot turn-taking engine (`engine/callManager.js` and
`server.js`).  The per-session state of `CallManager` is embedded as the
structure `CallState`; the per-frame audio handler, the silence-boundary timer
callback, the watchdog, playback, and call teardown are embedded as pure
functions over that state.  JavaScript timers are made explicit: each
`setTimeout` allocates a fresh identifier, the session field that stores the
handle is kept separate from the multiset of timers that are actually pending
(`liveSilence` / `liveWatchdog`), and `clearTimeout` removes an identifier
from the pending multiset.  Provider calls (speech-to-text, the hallucination
filter, reply generation, grading) are external services; their outputs enter
the model as parameters of the corresponding events, exactly at the places the
code awaits them.
-/

namespace VoiceBot

/-- One conversational turn as pushed onto `history` (role and text). -/
structure Turn where
  role : String
  content : String
  deriving DecidableEq, Repr

/-- Loudness threshold for voice-activity detection (`LOUDNESS_THRESHOLD`,
callManager.js line 110). -/
def LOUDNESS_THRESHOLD : Nat := 300

/-- JavaScript `Array.prototype.slice(-n)`: the last `n` elements (all of them
when the array is shorter than `n`). -/
def sliceLast (l : List Nat) (n : Nat) : List Nat := l.drop (l.length - n)

/-- Whitespace characters removed by JavaScript `String.prototype.trim` (the
ones that can occur in the engine's provider strings). -/
def jsWhitespace (c : Char) : Bool :=
  c = ' ' || c = '\t' || c = '\n' || c = '\r'

/-- JavaScript `String.prototype.trim`: strip leading and trailing
whitespace. -/
def jsTrim (s : String) : String :=
  String.mk (((s.data.dropWhile jsWhitespace).reverse.dropWhile jsWhitespace).reverse)

/-- The mutable state of one call session, as created by `startCall`
(callManager.js lines 39-54), together with the process-wide side channel
`manualOverrideResponse` and the bookkeeping that makes JavaScript timers
explicit (`liveSilence` / `liveWatchdog` are the identifiers of the pending,
not-yet-fired timeouts; `nextTimerId` allocates fresh identifiers;
`cyclesInFlight` counts silence-timer callbacks that have started but not yet
reached their `finally`). -/
structure CallState where
  history : List Turn
  isBookingConfirmed : Bool
  scenario : String
  targetLanguage : String
  symptom : String
  audioBuffer : List Nat
  silenceTimer : Option Nat
  watchdogTimeout : Option Nat
  wdogReason : String
  hasSpoken : Bool
  isProcessing : Bool
  isEnding : Bool
  wsOpen : Bool
  packetCount : Nat
  manualOverrideResponse : Option String
  liveSilence : List Nat
  liveWatchdog : List Nat
  nextTimerId : Nat
  cyclesInFlight : Nat
  deriving DecidableEq, Repr

/-- The session object installed by `startCall` (callManager.js lines 39-54):
empty history and buffer, no timers, all flags clear.  The `resetWatchdog`
call on line 37 runs before the session is inserted into `activeCalls`, so it
returns without arming anything; accordingly `watchdogTimeout = none` here. -/
def initCallState (scenario targetLanguage symptom : String) : CallState where
  history := []
  isBookingConfirmed := false
  scenario := scenario
  targetLanguage := targetLanguage
  symptom := symptom
  audioBuffer := []
  silenceTimer := none
  watchdogTimeout := none
  wdogReason := ""
  hasSpoken := false
  isProcessing := false
  isEnding := false
  wsOpen := true
  packetCount := 0
  manualOverrideResponse := none
  liveSilence := []
  liveWatchdog := []
  nextTimerId := 0
  cyclesInFlight := 0

/-- Buffer-capping step of `handleIncomingAudio` (callManager.js lines
94-108): append the new chunk, then trim to the last 50 frames while speech
has not started and the buffer exceeds 150 frames, and to the last 1400
frames while speech is in progress and the buffer exceeds 1400 frames. -/
def trimBuffer (hasSpoken : Bool) (buf : List Nat) : List Nat :=
  let buf := if hasSpoken = false ∧ buf.length > 150 then sliceLast buf 50 else buf
  if hasSpoken = true ∧ buf.length > 1400 then sliceLast buf 1400 else buf

/-- Synchronous body of `CallManager.handleIncomingAudio` (callManager.js
lines 84-221) for a session present in the registry: count the packet, buffer
and cap the frame, then either (loud frame) cancel the armed silence timer
and watchdog and mark speech, or (quiet frame after speech, no timer armed)
arm a fresh 1.2 s silence timer.  The timer callback itself is a separate
event (`silenceTimerFire` / `turnCycleBody`). -/
def handleIncomingAudio (s : CallState) (chunk : Nat) (rms : Nat) : CallState :=
  let s := { s with packetCount := s.packetCount + 1,
                    audioBuffer := trimBuffer s.hasSpoken (s.audioBuffer ++ [chunk]) }
  if LOUDNESS_THRESHOLD < rms then
    let s := match s.silenceTimer with
      | some t => { s with liveSilence := s.liveSilence.erase t, silenceTimer := none }
      | none => s
    let s := match s.watchdogTimeout with
      | some t => { s with liveWatchdog := s.liveWatchdog.erase t, watchdogTimeout := none }
      | none => s
    { s with hasSpoken := true }
  else
    if s.hasSpoken = true ∧ s.silenceTimer = none then
      { s with silenceTimer := some s.nextTimerId,
               liveSilence := s.liveSilence ++ [s.nextTimerId],
               nextTimerId := s.nextTimerId + 1 }
    else s

/-- Embeds `CallManager.resetWatchdog` for a session present in the registry
(callManager.js lines 60-76): clear any pending watchdog timeout, then arm a
fresh one whose callback will record `reason`. -/
def resetWatchdogS (s : CallState) (reason : String) : CallState :=
  let s := match s.watchdogTimeout with
    | some t => { s with liveWatchdog := s.liveWatchdog.erase t, watchdogTimeout := none }
    | none => s
  { s with watchdogTimeout := some s.nextTimerId,
           liveWatchdog := s.liveWatchdog ++ [s.nextTimerId],
           nextTimerId := s.nextTimerId + 1,
           wdogReason := reason }

/-- The synchronous prefix of `CallManager.endCall` (callManager.js lines
223-234): return unchanged when teardown already started, otherwise set the
`isEnding` guard and clear the pending watchdog timeout.  Everything after
this point in `endCall` (the polling wait, the report, the registry removal)
happens across `await` boundaries and is modelled at the registry level. -/
def endCallBeginS (s : CallState) : CallState :=
  if s.isEnding = true then s
  else
    let s := { s with isEnding := true }
    match s.watchdogTimeout with
    | some t => { s with liveWatchdog := s.liveWatchdog.erase t, watchdogTimeout := none }
    | none => s

/-- Text of the synthetic terminal turn pushed by the watchdog callback
(callManager.js line 70). -/
def autoTerminatedMsg (reason : String) : String :=
  "[Auto-Terminated: " ++ reason ++ "]"

/-- Expiry of a pending watchdog timeout (callManager.js lines 68-75): the
callback appends a synthetic terminal turn recording the armed reason and
invokes `endCall`.  A timeout identifier that is not pending (already cleared
or already fired) cannot fire. -/
def watchdogFireS (s : CallState) (t : Nat) : CallState :=
  if t ∈ s.liveWatchdog then
    endCallBeginS
      { s with liveWatchdog := s.liveWatchdog.erase t,
               history := s.history ++ [⟨"assistant", autoTerminatedMsg s.wdogReason⟩] }
  else s

/-- Expiry of a pending silence (boundary) timer: the start of the callback on
callManager.js lines 130-139, up to the first `await`.  It marks the cycle in
flight (`isProcessing = true`), snapshots and clears the audio buffer and
resets `hasSpoken`.  Note that `callState.silenceTimer` keeps holding the
fired handle until the callback's `finally`.  The ghost counter
`cyclesInFlight` is incremented so that callbacks can be counted between
their start and their `finally`. -/
def silenceTimerFire (s : CallState) (t : Nat) : CallState :=
  if t ∈ s.liveSilence then
    { s with liveSilence := s.liveSilence.erase t,
             isProcessing := true,
             audioBuffer := [],
             hasSpoken := false,
             cyclesInFlight := s.cyclesInFlight + 1 }
  else s

/-- Observable outcome of one silence-timer cycle: whether synthesized audio
was streamed to the transport, whether the watchdog was re-armed afterwards,
and how many times the process-wide `latestReceivedOTP` side channel was read
while producing the reply. -/
structure CycleOut where
  state : CallState
  played : Bool
  watchdogRearmed : Bool
  otpReads : Nat
  deriving DecidableEq, Repr

/-- Embeds `CallManager.playAIResponse` (callManager.js lines 308-353) for a session
present in the registry: return unchanged while teardown is in progress,
otherwise append the reply as an assistant turn, mark `hasSpoken`, and — when
the transport socket is open — stream the synthesized audio and re-arm the
watchdog with the 45 s post-reply duration.  Synthesis and the paced
streaming loop touch no session state beyond this. -/
def playAIResponseS (s : CallState) (replyText : String) : CycleOut :=
  if s.isEnding = true then ⟨s, false, false, 0⟩
  else
    let s := { s with history := s.history ++ [⟨"assistant", replyText⟩], hasSpoken := true }
    if s.wsOpen then
      ⟨resetWatchdogS s "Target bot hung (no response) for 45 seconds after AI spoke.",
       true, true, 0⟩
    else ⟨s, false, false, 0⟩

/-- Reply resolution (callManager.js lines 171-189): a pending manual
override is consumed as the reply and cleared without calling the language
provider; otherwise the provider's reply is used and `latestReceivedOTP` is
read once (it is forwarded into the generation call's context and never
cleared).  Returns the reply, the override value after the turn, and the
number of OTP reads. -/
def resolveReply (override : Option String) (llmReply : String) : String × Option String × Nat :=
  match override with
  | some v => (v, none, 0)
  | none => (llmReply, none, 1)

/-- The `finally` of the silence-timer callback (callManager.js lines
211-214): clear `isProcessing` and null the stored silence-timer handle.  The
ghost cycle counter is decremented to match. -/
def cycleFinally (s : CallState) : CallState :=
  { s with isProcessing := false, silenceTimer := none,
           cyclesInFlight := s.cyclesInFlight - 1 }

/-- Text of the synthetic terminal turn pushed on the `END_CALL_LOOP` control
token (callManager.js line 199). -/
def stuckLoopMsg : String :=
  "[Auto-Terminated by Tester: Target bot is stuck in an infinite loop]"

/-- Control-token interpretation and hand-off (callManager.js lines
191-214), given the resolved reply: `"WAIT"` (after trim) returns without
speaking; `"END_CALL_LOOP"` appends the terminal turn and closes the
transport socket; anything else is played back.  All paths run the
callback's `finally`. -/
def interpretReply (s : CallState) (replyText : String) (otpReads : Nat) : CycleOut :=
  if jsTrim replyText = "WAIT" then ⟨cycleFinally s, false, false, otpReads⟩
  else if jsTrim replyText = "END_CALL_LOOP" then
    ⟨cycleFinally { s with history := s.history ++ [⟨"assistant", stuckLoopMsg⟩],
                           wsOpen := false },
     false, false, otpReads⟩
  else
    let p := playAIResponseS s replyText
    ⟨cycleFinally p.state, p.played, p.watchdogRearmed, otpReads⟩

/-- Body of the silence-timer callback after the buffer snapshot
(callManager.js lines 156-214), with the provider outputs as parameters:
`transcript` and the hallucination verdict come back from the speech-to-text
and filter calls, `llmReply` from the generation call.  A transcript shorter
than 2 characters after trimming, or one flagged as a hallucination, abandons
the cycle silently; otherwise the transcript is appended as a user turn, the
reply is resolved (manual override first) and interpreted. -/
def turnCycleBody (s : CallState) (transcript : String) (hallucinated : Bool)
    (llmReply : String) : CycleOut :=
  if (jsTrim transcript).length < 2 then ⟨cycleFinally s, false, false, 0⟩
  else if hallucinated = true then ⟨cycleFinally s, false, false, 0⟩
  else
    let s := { s with history := s.history ++ [Turn.mk "user" transcript] }
    let r := resolveReply s.manualOverrideResponse llmReply
    interpretReply { s with manualOverrideResponse := r.2.1 } r.1 r.2.2

/-- Embeds `CallManager.triggerAIResponse` (callManager.js lines 289-303) for a
session present in the registry: return unchanged while teardown is in
progress, otherwise record the initiative turn, generate a reply (reading the
OTP side channel once) and play it back. -/
def triggerAIResponseS (s : CallState) (initialText llmReply : String) : CallState :=
  if s.isEnding = true then s
  else
    let s := { s with history := s.history ++
      [Turn.mk "assistant"
        ("(System: Bot was silent. AI is taking initiative: " ++ initialText ++ ")")] }
    (playAIResponseS s llmReply).state

/-- The events that can touch one session's state, in the order the
JavaScript event loop can deliver them: an inbound audio frame, the expiry of
a pending silence timer, the completion of an in-flight cycle (with the
provider outputs it consumed), an AI-initiative trigger, the expiry of a
pending watchdog timeout, and the synchronous prefix of `endCall`. -/
inductive Ev where
  | frame (chunk : Nat) (rms : Nat)
  | fire (t : Nat)
  | finish (transcript : String) (hallucinated : Bool) (llmReply : String)
  | trigger (initialText : String) (llmReply : String)
  | wdogFire (t : Nat)
  | endBegin
  deriving DecidableEq, Repr

/-- One step of the session machine. -/
def step (s : CallState) : Ev → CallState
  | .frame chunk rms => handleIncomingAudio s chunk rms
  | .fire t => silenceTimerFire s t
  | .finish transcript hallucinated llmReply =>
      if s.cyclesInFlight = 0 then s
      else (turnCycleBody s transcript hallucinated llmReply).state
  | .trigger initialText llmReply => triggerAIResponseS s initialText llmReply
  | .wdogFire t => watchdogFireS s t
  | .endBegin => endCallBeginS s

/-- Run the session machine over a list of events. -/
def run (s : CallState) : List Ev → CallState
  | [] => s
  | e :: evs => run (step s e) evs

/-- Side condition for the amended single-flight claim: a loud frame is only
delivered while no cycle is in flight. -/
def evAllowed (s : CallState) : Ev → Bool
  | .frame _ rms => rms ≤ LOUDNESS_THRESHOLD || s.cyclesInFlight == 0
  | _ => true

/-- A trace is allowed when every event satisfies `evAllowed` in the state it
is delivered in. -/
def allowedRun (s : CallState) : List Ev → Bool
  | [] => true
  | e :: evs => evAllowed s e && allowedRun (step s e) evs

/-! ## Playback gain (callManager.js lines 321-329)

The volume boost multiplies each 16-bit sample by `VOLUME_MULTIPLIER = 2.5`
and clamps before storing back into the `Int16Array`.  The product is half
integral, so it is represented exactly by `5 * x` half-units; the comparison
`boosted > 32767` is `5 * x > 2 * 32767` and storing truncates toward zero
(the JavaScript `ToInt16` conversion), which on the half-unit representation
is `truncHalf`. -/

/-- Twice the volume multiplier: the gain 2.5 represented exactly as 5/2. -/
def VOLUME_MULTIPLIER_TIMES_2 : Int := 5

/-- Truncation toward zero of `halves / 2`, as JavaScript number-to-integer
conversion performs on the (exact) product `x * 2.5`. -/
def truncHalf (halves : Int) : Int :=
  if 0 ≤ halves then halves / 2 else -((-halves) / 2)

/-- JavaScript storage into an `Int16Array`: wrap the integer into
[-32768, 32767] modulo 2^16. -/
def toInt16Wrap (n : Int) : Int := (n + 32768) % 65536 - 32768

/-- The boosted sample before storage (callManager.js lines 325-327):
`boosted = samples[i] * 2.5`, clamped to 32767 above and -32768 below,
otherwise truncated toward zero. -/
def boostSample (x : Int) : Int :=
  let halves := VOLUME_MULTIPLIER_TIMES_2 * x
  if 2 * 32767 < halves then 32767
  else if halves < 2 * (-32768) then -32768
  else truncHalf halves

/-- The value actually stored back into the sample array
(callManager.js line 328). -/
def storeSample (x : Int) : Int := toInt16Wrap (boostSample x)

/-! ## Registry level: `CallManager`'s `activeCalls` map, `startCall` and
`endCall` (callManager.js lines 5-55 and 223-284, server.js lines 74-85). -/

/-- The post-call report as consumed by the engine.  The grading provider
(`llmService.generateTestReport`) also returns `status`,
`languageDetectionSuccess`, `uxAnalysis` and `enhancements`, but `endCall`
only reads `isBookingConfirmed` (callManager.js line 259).  On an API error
the provider catches internally and returns a fallback report without an
`isBookingConfirmed` field; the strict comparison `=== true` reads that
missing field as not confirmed, so the fallback is modelled as
`isBookingConfirmed = false`. -/
structure Report where
  isBookingConfirmed : Bool
  deriving DecidableEq, Repr

/-- The process-wide `CallManager` state: the `activeCalls` map (as an
association list keyed by call SID), the cross-call scenario memory and side
channels, plus two observation counters for the emitted `###REPORT###` lines
and the registry removals. -/
structure GState where
  activeCalls : List (String × CallState)
  nextScenario : String
  pendingTestLanguage : String
  manualOverrideResponse : Option String
  latestReceivedOTP : Option String
  reportsEmitted : Nat
  removals : Nat
  deriving DecidableEq, Repr

/-- The manager state at process start (callManager.js lines 6-15). -/
def initGState : GState where
  activeCalls := []
  nextScenario := "BOOKING"
  pendingTestLanguage := "English"
  manualOverrideResponse := none
  latestReceivedOTP := none
  reportsEmitted := 0
  removals := 0

/-- JavaScript `Map.prototype.get` on an association list. -/
def findCall (calls : List (String × CallState)) (sid : String) : Option CallState :=
  match calls.find? (fun p => p.1 == sid) with
  | some p => some p.2
  | none => none

/-- The engine read `activeCalls.get(sid)`. -/
def lookupCall (g : GState) (sid : String) : Option CallState :=
  findCall g.activeCalls sid

/-- The engine write `activeCalls.set(sid, cs)`: overwrite the entry when present, append it
otherwise. -/
def setCall : List (String × CallState) → String → CallState → List (String × CallState)
  | [], sid, cs => [(sid, cs)]
  | (k, v) :: rest, sid, cs =>
      if k == sid then (sid, cs) :: rest else (k, v) :: setCall rest sid cs

/-- The engine removal `activeCalls.delete(sid)`. -/
def removeCall (calls : List (String × CallState)) (sid : String) :
    List (String × CallState) :=
  calls.filter (fun p => p.1 != sid)

/-- Embeds `CallManager.resetWatchdog` (callManager.js lines 60-76) at the registry
level: a no-op when the call SID is absent.  The millisecond delay is not
tracked; `reason` is recorded for the expiry callback. -/
def resetWatchdogG (g : GState) (sid : String) (reason : String) : GState :=
  match lookupCall g sid with
  | none => g
  | some s => { g with activeCalls := setCall g.activeCalls sid (resetWatchdogS s reason) }

/-- Embeds `CallManager.startCall` (callManager.js lines 22-55): assign the pending
scenario and language (defaulting to English), clear the manual override,
attempt to arm the initial 2-minute watchdog — a no-op, because the session
is not yet in `activeCalls` — and install the fresh session. -/
def startCallG (g : GState) (sid : String) (symptom : String) : GState :=
  let currentScenario := g.nextScenario
  let currentLanguage := if g.pendingTestLanguage = "" then "English" else g.pendingTestLanguage
  let g := { g with manualOverrideResponse := none }
  let g := resetWatchdogG g sid "Target bot unreachable (no connection) for 2 minutes."
  { g with activeCalls :=
      setCall g.activeCalls sid (initCallState currentScenario currentLanguage symptom) }

/-- Embeds `CallManager.handleIncomingAudio` at the registry level (callManager.js
lines 86-87): a silent no-op when the call SID is absent. -/
def handleIncomingAudioG (g : GState) (sid : String) (chunk rms : Nat) : GState :=
  match lookupCall g sid with
  | none => g
  | some s => { g with activeCalls := setCall g.activeCalls sid (handleIncomingAudio s chunk rms) }

/-- Embeds `CallManager.triggerAIResponse` at the registry level (callManager.js
lines 289-291): a silent no-op when the call SID is absent or teardown has
begun. -/
def triggerAIResponseG (g : GState) (sid : String) (initialText llmReply : String) : GState :=
  match lookupCall g sid with
  | none => g
  | some s =>
      if s.isEnding = true then g
      else { g with activeCalls := setCall g.activeCalls sid (triggerAIResponseS s initialText llmReply) }

/-- Embeds `CallManager.playAIResponse` at the registry level (callManager.js lines
308-310): a silent no-op when the call SID is absent or teardown has
begun. -/
def playAIResponseG (g : GState) (sid : String) (replyText : String) : GState :=
  match lookupCall g sid with
  | none => g
  | some s =>
      if s.isEnding = true then g
      else { g with activeCalls := setCall g.activeCalls sid (playAIResponseS s replyText).state }

/-- How far one invocation of `endCall` got when it first yields: `noop` when
it returned at the guard (absent session or `isEnding` already set),
`finished` when it completed synchronously (no conversation: skipped report
emitted and session removed before any `await`), `suspended` when it is
parked at the `generateTestReport` await with the session object captured in
its closure. -/
inductive EndPhase where
  | noop
  | finished
  | suspended (captured : CallState)
  deriving DecidableEq, Repr

/-- First block of `CallManager.endCall` (callManager.js lines 223-256): the
guard and `isEnding` flag, clearing the watchdog, the graceful wait (which
only reads state and sleeps), force-closing the socket, and — when the call
had no conversation — emitting the skipped report and removing the session,
all before any suspension.  With a conversation it stops at the
`generateTestReport` await. -/
def endCallBeginG (g : GState) (sid : String) : GState × EndPhase :=
  match lookupCall g sid with
  | none => (g, .noop)
  | some s =>
      if s.isEnding = true then (g, .noop)
      else
        let s := endCallBeginS s
        let s := { s with wsOpen := false }
        if s.history = [] then
          ({ g with activeCalls := removeCall g.activeCalls sid,
                    reportsEmitted := g.reportsEmitted + 1,
                    removals := g.removals + 1 }, .finished)
        else
          ({ g with activeCalls := setCall g.activeCalls sid s }, .suspended s)

/-- Resumption of `endCall` after the `generateTestReport` await
(callManager.js lines 256-282), operating on the session captured in the
closure.  The await always resolves: `llmService.generateTestReport` catches
API errors internally and returns a fallback report, so `endCall`'s own
catch is unreachable for provider failures.  The `###REPORT###` line is
emitted, `nextScenario` flips to CANCELLATION exactly when a BOOKING call's
report confirmed the booking (every other graded outcome, the fallback
report included, resets it to BOOKING), and the session is removed from the
registry. -/
def endCallFinishG (g : GState) (sid : String) (captured : CallState)
    (report : Report) : GState :=
  { g with reportsEmitted := g.reportsEmitted + 1,
           nextScenario :=
             if captured.scenario = "BOOKING" ∧ report.isBookingConfirmed = true
             then "CANCELLATION" else "BOOKING",
           activeCalls := removeCall g.activeCalls sid,
           removals := g.removals + 1 }

/-- Embeds `POST /inject-otp` (server.js lines 74-85): store the injected OTP in the
process-wide side channel. -/
def injectOtp (g : GState) (otp : String) : GState :=
  { g with latestReceivedOTP := some otp }

/-! ## Helper lemmas -/

theorem sliceLast_isSuffix (l : List Nat) (n : Nat) : List.IsSuffix (sliceLast l n) l :=
  List.drop_suffix _ _

theorem sliceLast_length (l : List Nat) (n : Nat) :
    (sliceLast l n).length = l.length - (l.length - n) := by
  simp [sliceLast]

theorem trimBuffer_false_le (buf : List Nat) : (trimBuffer false buf).length ≤ 150 := by
  simp only [trimBuffer]
  split_ifs <;> simp_all [sliceLast] <;> omega

theorem trimBuffer_true_le (buf : List Nat) : (trimBuffer true buf).length ≤ 1400 := by
  simp only [trimBuffer]
  split_ifs <;> simp_all [sliceLast] <;> omega

theorem trimBuffer_isSuffix (b : Bool) (buf : List Nat) :
    List.IsSuffix (trimBuffer b buf) buf := by
  cases b <;> simp only [trimBuffer] <;> split_ifs <;>
    simp_all [sliceLast] <;> exact List.drop_suffix _ _

/-- The audio buffer after `handleIncomingAudio` is the capped extension of
the previous buffer; the loud/quiet branches do not touch it. -/
theorem handleIncomingAudio_audioBuffer (s : CallState) (chunk rms : Nat) :
    (handleIncomingAudio s chunk rms).audioBuffer
      = trimBuffer s.hasSpoken (s.audioBuffer ++ [chunk]) := by
  cases hst : s.silenceTimer <;> cases hwt : s.watchdogTimeout <;>
    by_cases hr : LOUDNESS_THRESHOLD < rms <;>
    simp [handleIncomingAudio, hst, hwt, hr] <;> split_ifs <;> simp

/-- The flag `hasSpoken` after `handleIncomingAudio`: set by a loud frame, preserved
otherwise. -/
theorem handleIncomingAudio_hasSpoken (s : CallState) (chunk rms : Nat) :
    (handleIncomingAudio s chunk rms).hasSpoken
      = (decide (LOUDNESS_THRESHOLD < rms) || s.hasSpoken) := by
  cases hst : s.silenceTimer <;> cases hwt : s.watchdogTimeout <;>
    by_cases hr : LOUDNESS_THRESHOLD < rms <;>
    simp [handleIncomingAudio, hst, hwt, hr] <;> split_ifs <;> simp

/-! ## C3 -/

/-- C3: after every `handleIncomingAudio` call the session's buffer holds at
most 150 frames while `hasSpoken` is false and at most 1400 frames while
`hasSpoken` is true, and the retained frames are always a suffix of the
previously buffered frames extended by the newly appended one (trimming keeps
exactly the most recent frames). -/
theorem audio_buffer_caps_and_suffix (s : CallState) (chunk rms : Nat) :
    ((handleIncomingAudio s chunk rms).hasSpoken = false →
        (handleIncomingAudio s chunk rms).audioBuffer.length ≤ 150) ∧
    ((handleIncomingAudio s chunk rms).hasSpoken = true →
        (handleIncomingAudio s chunk rms).audioBuffer.length ≤ 1400) ∧
    List.IsSuffix (handleIncomingAudio s chunk rms).audioBuffer (s.audioBuffer ++ [chunk]) := by
  rw [handleIncomingAudio_audioBuffer, handleIncomingAudio_hasSpoken]
  refine ⟨fun h => ?_, fun _ => ?_, trimBuffer_isSuffix _ _⟩
  · have hs : s.hasSpoken = false := by
      cases hsp : s.hasSpoken <;> simp [hsp] at h ⊢
    rw [hs]; exact trimBuffer_false_le _
  · cases hsp : s.hasSpoken
    · exact le_trans (trimBuffer_false_le _) (by omega)
    · exact trimBuffer_true_le _

/-- Witness for C3: a 151st pre-speech frame is trimmed back to the rolling
50-frame tail. -/
theorem audio_buffer_caps_and_suffix_witness :
    ((handleIncomingAudio
        { initCallState "BOOKING" "English" "fever" with
            audioBuffer := List.replicate 150 7 } 9 0).hasSpoken = false) ∧
    (handleIncomingAudio
        { initCallState "BOOKING" "English" "fever" with
            audioBuffer := List.replicate 150 7 } 9 0).audioBuffer.length ≤ 150 :=
  ⟨by decide,
   (audio_buffer_caps_and_suffix
      { initCallState "BOOKING" "English" "fever" with
          audioBuffer := List.replicate 150 7 } 9 0).1 (by decide)⟩

/-! ## C7 -/

/-- C7: a loud frame (RMS above the threshold) always cancels an armed
boundary (silence) timer — the handle is nulled and the pending timeout is
removed — and disarms the watchdog likewise; a quiet frame never arms a
second boundary timer while one is already armed (the stored handle, the set
of pending silence timers and the timer-id allocator are all unchanged). -/
theorem loud_cancels_quiet_never_double_arms (s : CallState) (chunk rms : Nat) :
    (LOUDNESS_THRESHOLD < rms →
        (handleIncomingAudio s chunk rms).silenceTimer = none ∧
        (handleIncomingAudio s chunk rms).watchdogTimeout = none ∧
        (∀ t, s.silenceTimer = some t →
            (handleIncomingAudio s chunk rms).liveSilence = s.liveSilence.erase t) ∧
        (∀ t, s.watchdogTimeout = some t →
            (handleIncomingAudio s chunk rms).liveWatchdog = s.liveWatchdog.erase t)) ∧
    (rms ≤ LOUDNESS_THRESHOLD → s.silenceTimer ≠ none →
        (handleIncomingAudio s chunk rms).silenceTimer = s.silenceTimer ∧
        (handleIncomingAudio s chunk rms).liveSilence = s.liveSilence ∧
        (handleIncomingAudio s chunk rms).nextTimerId = s.nextTimerId) := by
  constructor
  · intro hr
    cases hst : s.silenceTimer <;> cases hwt : s.watchdogTimeout <;>
      simp [handleIncomingAudio, hst, hwt, hr]
  · intro hr hsome
    have hr' : ¬ LOUDNESS_THRESHOLD < rms := by omega
    cases hst : s.silenceTimer with
    | none => exact absurd hst hsome
    | some t => simp [handleIncomingAudio, hst, hr']

/-- Witness for C7: a concrete session with both timers armed receives a loud
frame (they are cancelled) and a quiet frame (the armed boundary timer stays
put and no new one is allocated). -/
theorem loud_cancels_quiet_never_double_arms_witness :
    (LOUDNESS_THRESHOLD < 400 ∧
      (handleIncomingAudio
        { initCallState "BOOKING" "English" "fever" with
            silenceTimer := some 0, liveSilence := [0],
            watchdogTimeout := some 1, liveWatchdog := [1],
            nextTimerId := 2, hasSpoken := true } 5 400).silenceTimer = none) ∧
    ((0 : Nat) ≤ LOUDNESS_THRESHOLD ∧
      (handleIncomingAudio
        { initCallState "BOOKING" "English" "fever" with
            silenceTimer := some 0, liveSilence := [0],
            watchdogTimeout := some 1, liveWatchdog := [1],
            nextTimerId := 2, hasSpoken := true } 5 0).nextTimerId = 2) :=
  ⟨⟨by decide,
    ((loud_cancels_quiet_never_double_arms
      { initCallState "BOOKING" "English" "fever" with
          silenceTimer := some 0, liveSilence := [0],
          watchdogTimeout := some 1, liveWatchdog := [1],
          nextTimerId := 2, hasSpoken := true } 5 400).1 (by decide)).1⟩,
   ⟨by decide,
    ((loud_cancels_quiet_never_double_arms
      { initCallState "BOOKING" "English" "fever" with
          silenceTimer := some 0, liveSilence := [0],
          watchdogTimeout := some 1, liveWatchdog := [1],
          nextTimerId := 2, hasSpoken := true } 5 0).2 (by decide) (by decide)).2.2⟩⟩

/-! ## C9 -/

/-- C9: for every 16-bit sample value, multiplying by the 2.5 gain and
storing saturates instead of wrapping: a product above 32767 is stored as
32767, one below -32768 as -32768, the stored value always lies in
[-32768, 32767], and the `Int16Array` wrap-around conversion is the identity
on it (no overflowed value is ever stored). -/
theorem gain_clamps_no_wraparound (x : Int) (hlo : -32768 ≤ x) (hhi : x ≤ 32767) :
    (-32768 ≤ boostSample x ∧ boostSample x ≤ 32767) ∧
    (2 * 32767 < VOLUME_MULTIPLIER_TIMES_2 * x → boostSample x = 32767) ∧
    (VOLUME_MULTIPLIER_TIMES_2 * x < 2 * (-32768) → boostSample x = -32768) ∧
    storeSample x = boostSample x := by
  simp only [storeSample, boostSample, toInt16Wrap, truncHalf, VOLUME_MULTIPLIER_TIMES_2]
  split_ifs <;> refine ⟨⟨?_, ?_⟩, fun h => ?_, fun h => ?_, ?_⟩ <;> omega

/-- Witness for C9: the sample 32767 saturates at 32767, and -32768
saturates at -32768, in both cases without wrap-around. -/
theorem gain_clamps_no_wraparound_witness :
    ((-32768 ≤ (32767 : Int) ∧ (32767 : Int) ≤ 32767) ∧
      boostSample 32767 = 32767 ∧ storeSample 32767 = boostSample 32767) ∧
    ((-32768 ≤ (-32768 : Int) ∧ (-32768 : Int) ≤ 32767) ∧
      boostSample (-32768) = -32768 ∧ storeSample (-32768) = boostSample (-32768)) :=
  ⟨⟨⟨by decide, by decide⟩,
    (gain_clamps_no_wraparound 32767 (by decide) (by decide)).2.1 (by decide),
    (gain_clamps_no_wraparound 32767 (by decide) (by decide)).2.2.2⟩,
   ⟨⟨by decide, by decide⟩,
    (gain_clamps_no_wraparound (-32768) (by decide) (by decide)).2.2.1 (by decide),
    (gain_clamps_no_wraparound (-32768) (by decide) (by decide)).2.2.2⟩⟩

/-! ## C4 -/

theorem turnCycleBody_eq_interpret (s : CallState) (transcript llmReply : String)
    (hlen : ¬ (jsTrim transcript).length < 2) :
    turnCycleBody s transcript false llmReply =
      interpretReply
        { s with history := s.history ++ [Turn.mk "user" transcript],
                 manualOverrideResponse := (resolveReply s.manualOverrideResponse llmReply).2.1 }
        (resolveReply s.manualOverrideResponse llmReply).1
        (resolveReply s.manualOverrideResponse llmReply).2.2 := by
  simp [turnCycleBody, hlen]

theorem interpretReply_wait (s : CallState) (replyText : String) (otpReads : Nat)
    (h : jsTrim replyText = "WAIT") :
    interpretReply s replyText otpReads = ⟨cycleFinally s, false, false, otpReads⟩ := by
  simp [interpretReply, h]

theorem interpretReply_endLoop (s : CallState) (replyText : String) (otpReads : Nat)
    (h : jsTrim replyText = "END_CALL_LOOP") :
    interpretReply s replyText otpReads =
      ⟨cycleFinally { s with history := s.history ++ [⟨"assistant", stuckLoopMsg⟩],
                             wsOpen := false },
       false, false, otpReads⟩ := by
  simp [interpretReply, h]

/-- C4: in a turn cycle whose transcript passed the length and hallucination
filters, a resolved reply that trims to `"WAIT"` causes no playback and no
watchdog re-arm (the watchdog handle and pending set are untouched, the
transport stays as it was, and only the user turn was appended); a reply that
trims to `"END_CALL_LOOP"` appends the synthetic terminal turn after the user
turn and closes the transport connection, again without playback. -/
theorem wait_and_end_call_loop_tokens (s : CallState) (transcript llmReply : String)
    (hlen : ¬ (jsTrim transcript).length < 2) :
    (jsTrim (resolveReply s.manualOverrideResponse llmReply).1 = "WAIT" →
        (turnCycleBody s transcript false llmReply).played = false ∧
        (turnCycleBody s transcript false llmReply).watchdogRearmed = false ∧
        (turnCycleBody s transcript false llmReply).state.watchdogTimeout = s.watchdogTimeout ∧
        (turnCycleBody s transcript false llmReply).state.liveWatchdog = s.liveWatchdog ∧
        (turnCycleBody s transcript false llmReply).state.history
          = s.history ++ [Turn.mk "user" transcript] ∧
        (turnCycleBody s transcript false llmReply).state.wsOpen = s.wsOpen) ∧
    (jsTrim (resolveReply s.manualOverrideResponse llmReply).1 = "END_CALL_LOOP" →
        (turnCycleBody s transcript false llmReply).state.history
          = s.history ++ [Turn.mk "user" transcript, Turn.mk "assistant" stuckLoopMsg] ∧
        (turnCycleBody s transcript false llmReply).state.wsOpen = false ∧
        (turnCycleBody s transcript false llmReply).played = false) := by
  rw [turnCycleBody_eq_interpret s transcript llmReply hlen]
  constructor
  · intro hw
    rw [interpretReply_wait _ _ _ hw]
    simp [cycleFinally]
  · intro he
    rw [interpretReply_endLoop _ _ _ he]
    simp [cycleFinally]

/-- Witness for C4: a concrete cycle in which the provider replies
`" WAIT "` does not play or re-arm, and one in which it replies
`"END_CALL_LOOP"` appends the terminal turn and closes the transport. -/
theorem wait_and_end_call_loop_tokens_witness :
    (¬ (jsTrim "hello there").length < 2 ∧
      jsTrim (resolveReply (initCallState "BOOKING" "English" "fever").manualOverrideResponse
        " WAIT ").1 = "WAIT" ∧
      (turnCycleBody (initCallState "BOOKING" "English" "fever") "hello there" false
        " WAIT ").played = false) ∧
    (jsTrim (resolveReply (initCallState "BOOKING" "English" "fever").manualOverrideResponse
        "END_CALL_LOOP").1 = "END_CALL_LOOP" ∧
      (turnCycleBody (initCallState "BOOKING" "English" "fever") "hello there" false
        "END_CALL_LOOP").state.wsOpen = false) :=
  ⟨⟨by decide, by decide,
    ((wait_and_end_call_loop_tokens (initCallState "BOOKING" "English" "fever")
      "hello there" " WAIT " (by decide)).1 (by decide)).1⟩,
   ⟨by decide,
    ((wait_and_end_call_loop_tokens (initCallState "BOOKING" "English" "fever")
      "hello there" "END_CALL_LOOP" (by decide)).2 (by decide)).2.1⟩⟩

/-! ## C8 -/

/-- C8: the process-wide side channels are consumed at most once per turn
cycle: `latestReceivedOTP` is read at most once (exactly by the one
generation call, and not at all when the cycle aborts or an override is
pending), and a pending `manualOverrideResponse` in a cycle that passes the
filters becomes that turn's reply and is cleared, so it replaces exactly one
generated reply. -/
theorem side_channels_consumed_once (s : CallState) (transcript llmReply : String)
    (hallucinated : Bool) :
    (turnCycleBody s transcript hallucinated llmReply).otpReads ≤ 1 ∧
    (∀ v, s.manualOverrideResponse = some v → ¬ (jsTrim transcript).length < 2 →
        hallucinated = false →
        (resolveReply s.manualOverrideResponse llmReply).1 = v ∧
        (turnCycleBody s transcript hallucinated llmReply).state.manualOverrideResponse = none ∧
        (turnCycleBody s transcript hallucinated llmReply).otpReads = 0) := by
  constructor
  · cases hov : s.manualOverrideResponse <;>
      by_cases hlen : (jsTrim transcript).length < 2 <;>
      cases hallucinated <;>
      simp [turnCycleBody, interpretReply, resolveReply, playAIResponseS, hov, hlen] <;>
      split_ifs <;> simp
  · intro v hov hlen hh
    subst hh
    refine ⟨by simp [resolveReply, hov], ?_, ?_⟩ <;>
      simp [turnCycleBody, interpretReply, resolveReply, playAIResponseS,
            resetWatchdogS, cycleFinally, hov, hlen] <;>
      split_ifs <;> cases hwt : s.watchdogTimeout <;> simp [cycleFinally, hwt]

/-- Witness for C8: with the override `"press 1"` pending, a valid cycle uses
it as the reply, clears it, and never reads the OTP channel. -/
theorem side_channels_consumed_once_witness :
    ((initCallState "BOOKING" "English" "fever" : CallState).manualOverrideResponse = none →
      True) ∧
    ({ initCallState "BOOKING" "English" "fever" with
        manualOverrideResponse := some "press 1" }.manualOverrideResponse = some "press 1" ∧
      ¬ (jsTrim "hello there").length < 2 ∧
      (resolveReply (some "press 1") "generated").1 = "press 1" ∧
      (turnCycleBody { initCallState "BOOKING" "English" "fever" with
           manualOverrideResponse := some "press 1" } "hello there" false
          "generated").state.manualOverrideResponse = none ∧
      (turnCycleBody { initCallState "BOOKING" "English" "fever" with
           manualOverrideResponse := some "press 1" } "hello there" false
          "generated").otpReads = 0) :=
  ⟨fun _ => trivial,
   ⟨by decide, by decide,
    ((side_channels_consumed_once { initCallState "BOOKING" "English" "fever" with
        manualOverrideResponse := some "press 1" } "hello there" "generated" false).2
      "press 1" (by decide) (by decide) (by decide)).1,
    ((side_channels_consumed_once { initCallState "BOOKING" "English" "fever" with
        manualOverrideResponse := some "press 1" } "hello there" "generated" false).2
      "press 1" (by decide) (by decide) (by decide)).2.1,
    ((side_channels_consumed_once { initCallState "BOOKING" "English" "fever" with
        manualOverrideResponse := some "press 1" } "hello there" "generated" false).2
      "press 1" (by decide) (by decide) (by decide)).2.2⟩⟩

/-! ## Association-list lemmas -/

theorem findCall_setCall_self (calls : List (String × CallState)) (sid : String)
    (cs : CallState) : findCall (setCall calls sid cs) sid = some cs := by
  induction calls with
  | nil => simp [setCall, findCall]
  | cons hd tl ih =>
      by_cases h : hd.1 == sid
      · simp [setCall, findCall, h]
      · simpa [setCall, findCall, h] using ih

theorem findCall_removeCall_self (calls : List (String × CallState)) (sid : String) :
    findCall (removeCall calls sid) sid = none := by
  induction calls with
  | nil => simp [removeCall, findCall]
  | cons hd tl ih =>
      by_cases h : hd.1 == sid
      · simpa [removeCall, findCall, h] using ih
      · have h' : hd.1 != sid := by simpa using h
        simpa [removeCall, findCall, h, h'] using ih

/-- An `endCall` invocation returns at the guard when the session is absent. -/
theorem endCallBeginG_absent (g : GState) (sid : String) (h : lookupCall g sid = none) :
    endCallBeginG g sid = (g, EndPhase.noop) := by
  simp [endCallBeginG, h]

/-- An `endCall` invocation returns at the guard when teardown has already started. -/
theorem endCallBeginG_ending (g : GState) (sid : String) (cs : CallState)
    (h : lookupCall g sid = some cs) (he : cs.isEnding = true) :
    endCallBeginG g sid = (g, EndPhase.noop) := by
  simp [endCallBeginG, h, he]

/-! ## C10 -/

/-- C10: every public operation invoked with a call SID absent from the
registry is a silent no-op that changes no state — `handleIncomingAudio`,
`resetWatchdog`, `endCall`, `triggerAIResponse` and `playAIResponse` all
return the manager state unchanged — and `triggerAIResponse` /
`playAIResponse` are also complete no-ops when the session's `isEnding` flag
is set. -/
theorem absent_session_noops (g : GState) (sid : String) (chunk rms : Nat)
    (reason initialText llmReply replyText : String) :
    (lookupCall g sid = none →
        handleIncomingAudioG g sid chunk rms = g ∧
        resetWatchdogG g sid reason = g ∧
        endCallBeginG g sid = (g, EndPhase.noop) ∧
        triggerAIResponseG g sid initialText llmReply = g ∧
        playAIResponseG g sid replyText = g) ∧
    (∀ cs, lookupCall g sid = some cs → cs.isEnding = true →
        triggerAIResponseG g sid initialText llmReply = g ∧
        playAIResponseG g sid replyText = g) := by
  constructor
  · intro h
    refine ⟨?_, ?_, ?_, ?_, ?_⟩ <;>
      simp [handleIncomingAudioG, resetWatchdogG, endCallBeginG,
            triggerAIResponseG, playAIResponseG, h]
  · intro cs h hend
    constructor <;>
      simp [triggerAIResponseG, playAIResponseG, h, hend]

/-- Witness for C10: on a registry holding only the session `"live"`, the
five operations applied to the absent SID `"ghost"` leave the state
untouched, and the two guarded operations applied to an ending session do
too. -/
theorem absent_session_noops_witness :
    (lookupCall { initGState with
        activeCalls := [("live", initCallState "BOOKING" "English" "fever")] } "ghost" = none ∧
      handleIncomingAudioG { initGState with
        activeCalls := [("live", initCallState "BOOKING" "English" "fever")] } "ghost" 3 400
        = { initGState with
        activeCalls := [("live", initCallState "BOOKING" "English" "fever")] }) ∧
    (lookupCall { initGState with
        activeCalls := [("end", { initCallState "BOOKING" "English" "fever" with
          isEnding := true })] } "end"
        = some { initCallState "BOOKING" "English" "fever" with isEnding := true } ∧
      playAIResponseG { initGState with
        activeCalls := [("end", { initCallState "BOOKING" "English" "fever" with
          isEnding := true })] } "end" "hi"
        = { initGState with
        activeCalls := [("end", { initCallState "BOOKING" "English" "fever" with
          isEnding := true })] }) :=
  ⟨⟨by decide,
    ((absent_session_noops { initGState with
        activeCalls := [("live", initCallState "BOOKING" "English" "fever")] } "ghost" 3 400
        "r" "t" "l" "p").1 (by decide)).1⟩,
   ⟨by decide,
    ((absent_session_noops { initGState with
        activeCalls := [("end", { initCallState "BOOKING" "English" "fever" with
          isEnding := true })] } "end" 3 400 "r" "t" "l" "hi").2
      { initCallState "BOOKING" "English" "fever" with isEnding := true }
      (by decide) (by decide)).2⟩⟩

/-! ## C5 -/

theorem endCallBeginS_isEnding (cs : CallState) : (endCallBeginS cs).isEnding = true := by
  by_cases h : cs.isEnding = true <;> cases hwt : cs.watchdogTimeout <;>
    simp [endCallBeginS, h, hwt]

theorem endCallBeginS_history (cs : CallState) : (endCallBeginS cs).history = cs.history := by
  by_cases h : cs.isEnding = true <;> cases hwt : cs.watchdogTimeout <;>
    simp [endCallBeginS, h, hwt]

theorem endCallBeginS_scenario (cs : CallState) : (endCallBeginS cs).scenario = cs.scenario := by
  by_cases h : cs.isEnding = true <;> cases hwt : cs.watchdogTimeout <;>
    simp [endCallBeginS, h, hwt]

/-- An `endCall` on a session with no conversation completes in its first
synchronous block: skipped report, removal, `finished`. -/
theorem endCallBeginG_empty_eq (g : GState) (sid : String) (cs : CallState)
    (hlook : lookupCall g sid = some cs) (hend : cs.isEnding = false)
    (hh : cs.history = []) :
    endCallBeginG g sid
      = ({ g with activeCalls := removeCall g.activeCalls sid,
                  reportsEmitted := g.reportsEmitted + 1,
                  removals := g.removals + 1 }, EndPhase.finished) := by
  simp [endCallBeginG, hlook, hend, endCallBeginS_history, hh]

/-- An `endCall` on a session with a conversation suspends at the grading await
with the session (guard set, watchdog cleared, socket closed) written back
and captured. -/
theorem endCallBeginG_conv_eq (g : GState) (sid : String) (cs : CallState)
    (hlook : lookupCall g sid = some cs) (hend : cs.isEnding = false)
    (hh : cs.history ≠ []) :
    endCallBeginG g sid
      = ({ g with activeCalls :=
              setCall g.activeCalls sid { endCallBeginS cs with wsOpen := false } },
         EndPhase.suspended { endCallBeginS cs with wsOpen := false }) := by
  simp [endCallBeginG, hlook, hend, endCallBeginS_history, hh]

/-- C5: `endCall` is idempotent: invoked twice, with the second invocation
interleaved at any of the first invocation's await points, it removes the
session from the registry exactly once and emits exactly one report (the
grading call always resolves — on a provider failure it returns a fallback
report — and a call without conversation emits the skipped report
synchronously), and the second invocation changes no state. -/
theorem endCall_idempotent (g : GState) (sid : String) (cs : CallState)
    (report : Report) (hlook : lookupCall g sid = some cs)
    (hend : cs.isEnding = false) :
    (cs.history = [] →
        (endCallBeginG g sid).2 = EndPhase.finished ∧
        (endCallBeginG g sid).1.removals = g.removals + 1 ∧
        (endCallBeginG g sid).1.reportsEmitted = g.reportsEmitted + 1 ∧
        lookupCall (endCallBeginG g sid).1 sid = none ∧
        endCallBeginG (endCallBeginG g sid).1 sid = ((endCallBeginG g sid).1, EndPhase.noop)) ∧
    (cs.history ≠ [] →
        (endCallBeginG g sid).2
          = EndPhase.suspended { endCallBeginS cs with wsOpen := false } ∧
        endCallBeginG (endCallBeginG g sid).1 sid = ((endCallBeginG g sid).1, EndPhase.noop) ∧
        (∀ cap,
          (endCallFinishG (endCallBeginG g sid).1 sid cap report).removals = g.removals + 1 ∧
          (endCallFinishG (endCallBeginG g sid).1 sid cap report).reportsEmitted
            = g.reportsEmitted + 1 ∧
          lookupCall (endCallFinishG (endCallBeginG g sid).1 sid cap report) sid = none ∧
          endCallBeginG (endCallFinishG (endCallBeginG g sid).1 sid cap report) sid
            = (endCallFinishG (endCallBeginG g sid).1 sid cap report, EndPhase.noop))) := by
  constructor
  · intro hh
    rw [endCallBeginG_empty_eq g sid cs hlook hend hh]
    refine ⟨rfl, rfl, rfl, ?_, ?_⟩
    · show findCall (removeCall g.activeCalls sid) sid = none
      exact findCall_removeCall_self _ _
    · exact endCallBeginG_absent _ _ (findCall_removeCall_self _ _)
  · intro hh
    rw [endCallBeginG_conv_eq g sid cs hlook hend hh]
    have hlook2 : lookupCall
        { g with activeCalls :=
            setCall g.activeCalls sid { endCallBeginS cs with wsOpen := false } } sid
        = some { endCallBeginS cs with wsOpen := false } :=
      findCall_setCall_self _ _ _
    refine ⟨rfl, ?_, ?_⟩
    · exact endCallBeginG_ending _ _ _ hlook2 (by simpa using endCallBeginS_isEnding cs)
    · intro cap
      refine ⟨rfl, rfl, ?_, ?_⟩
      · show findCall (removeCall _ sid) sid = none
        exact findCall_removeCall_self _ _
      · exact endCallBeginG_absent _ _ (findCall_removeCall_self _ _)

/-- Witness for C5: on a registry with the single session `"c1"` holding one
turn of history, a double `endCall` (second invocation after the first
completed) yields exactly one removal, one report and a final no-op. -/
theorem endCall_idempotent_witness :
    (lookupCall { initGState with
        activeCalls := [("c1", { initCallState "BOOKING" "English" "fever" with
          history := [Turn.mk "user" "hello"] })] } "c1"
      = some { initCallState "BOOKING" "English" "fever" with
          history := [Turn.mk "user" "hello"] } ∧
     ({ initCallState "BOOKING" "English" "fever" with
          history := [Turn.mk "user" "hello"] } : CallState).isEnding = false) ∧
    (({ initCallState "BOOKING" "English" "fever" with
          history := [Turn.mk "user" "hello"] } : CallState).history ≠ [] ∧
     (endCallFinishG
        (endCallBeginG { initGState with
          activeCalls := [("c1", { initCallState "BOOKING" "English" "fever" with
            history := [Turn.mk "user" "hello"] })] } "c1").1 "c1"
        { endCallBeginS { initCallState "BOOKING" "English" "fever" with
            history := [Turn.mk "user" "hello"] } with wsOpen := false }
        ⟨true⟩).removals
       = ({ initGState with
          activeCalls := [("c1", { initCallState "BOOKING" "English" "fever" with
            history := [Turn.mk "user" "hello"] })] } : GState).removals + 1) :=
  ⟨⟨by decide, by decide⟩,
   ⟨by decide,
    (((endCall_idempotent { initGState with
        activeCalls := [("c1", { initCallState "BOOKING" "English" "fever" with
          history := [Turn.mk "user" "hello"] })] } "c1"
        { initCallState "BOOKING" "English" "fever" with
          history := [Turn.mk "user" "hello"] } ⟨true⟩
        (by decide) (by decide)).2 (by decide)).2.2
      { endCallBeginS { initCallState "BOOKING" "English" "fever" with
          history := [Turn.mk "user" "hello"] } with wsOpen := false }).1⟩⟩

/-! ## C2 -/

/-- Every `startCall` installs a fresh session carrying the pending scenario and
language. -/
theorem startCallG_lookup_self (g : GState) (sid symptom : String) :
    lookupCall (startCallG g sid symptom) sid
      = some (initCallState g.nextScenario
          (if g.pendingTestLanguage = "" then "English" else g.pendingTestLanguage)
          symptom) := by
  unfold startCallG resetWatchdogG
  cases h : lookupCall { g with manualOverrideResponse := none } sid <;>
    simp [h, lookupCall, findCall_setCall_self]

/-- C2 (amended): every completed call with a conversation yields a report
(the grading call always resolves, returning a fallback report on provider
failure whose missing `isBookingConfirmed` field reads as not confirmed) and
drives the alternation as specified — next scenario CANCELLATION exactly
when a BOOKING call's report has `isBookingConfirmed === true`, BOOKING in
every other graded outcome — and `startCall` always assigns the pending
scenario to the next session; but a call that ends without conversation
leaves the pending scenario unchanged rather than resetting it to
BOOKING. -/
theorem scenario_alternation_amended (g : GState) (sid : String) (cs : CallState)
    (r : Report) (hlook : lookupCall g sid = some cs) (hend : cs.isEnding = false) :
    (cs.history ≠ [] →
        (endCallBeginG g sid).2
          = EndPhase.suspended { endCallBeginS cs with wsOpen := false } ∧
        ({ endCallBeginS cs with wsOpen := false } : CallState).scenario = cs.scenario ∧
        (∀ cap, cap.scenario = cs.scenario →
          (endCallFinishG (endCallBeginG g sid).1 sid cap r).nextScenario
            = (if cs.scenario = "BOOKING" ∧ r.isBookingConfirmed = true
               then "CANCELLATION" else "BOOKING"))) ∧
    (cs.history = [] →
        (endCallBeginG g sid).2 = EndPhase.finished ∧
        (endCallBeginG g sid).1.nextScenario = g.nextScenario) ∧
    (∀ g2 sid2 symptom,
        lookupCall (startCallG g2 sid2 symptom) sid2
          = some (initCallState g2.nextScenario
              (if g2.pendingTestLanguage = "" then "English" else g2.pendingTestLanguage)
              symptom)) := by
  refine ⟨?_, ?_, fun g2 sid2 symptom => startCallG_lookup_self g2 sid2 symptom⟩
  · intro hh
    rw [endCallBeginG_conv_eq g sid cs hlook hend hh]
    refine ⟨rfl, by simpa using endCallBeginS_scenario cs, ?_⟩
    intro cap hscen
    simp [endCallFinishG, hscen]
  · intro hh
    rw [endCallBeginG_empty_eq g sid cs hlook hend hh]
    exact ⟨rfl, rfl⟩

/-- Witness for the amended C2: a completed BOOKING call with one turn of
history and a confirming report flips the pending scenario to
CANCELLATION. -/
theorem scenario_alternation_amended_witness :
    (lookupCall { initGState with
        activeCalls := [("c1", { initCallState "BOOKING" "English" "fever" with
          history := [Turn.mk "user" "hello"] })] } "c1"
      = some { initCallState "BOOKING" "English" "fever" with
          history := [Turn.mk "user" "hello"] } ∧
     ({ initCallState "BOOKING" "English" "fever" with
          history := [Turn.mk "user" "hello"] } : CallState).isEnding = false ∧
     ({ initCallState "BOOKING" "English" "fever" with
          history := [Turn.mk "user" "hello"] } : CallState).history ≠ [] ∧
     ({ initCallState "BOOKING" "English" "fever" with
          history := [Turn.mk "user" "hello"], isEnding := true, wsOpen := false }
        : CallState).scenario
       = ({ initCallState "BOOKING" "English" "fever" with
          history := [Turn.mk "user" "hello"] } : CallState).scenario) ∧
    (endCallFinishG
        (endCallBeginG { initGState with
          activeCalls := [("c1", { initCallState "BOOKING" "English" "fever" with
            history := [Turn.mk "user" "hello"] })] } "c1").1 "c1"
        { initCallState "BOOKING" "English" "fever" with
          history := [Turn.mk "user" "hello"], isEnding := true, wsOpen := false }
        ⟨true⟩).nextScenario = "CANCELLATION" :=
  ⟨⟨by decide, by decide, by decide, by decide⟩, by
    have h := (((scenario_alternation_amended { initGState with
        activeCalls := [("c1", { initCallState "BOOKING" "English" "fever" with
          history := [Turn.mk "user" "hello"] })] } "c1"
        { initCallState "BOOKING" "English" "fever" with
          history := [Turn.mk "user" "hello"] } ⟨true⟩
        (by decide) (by decide)).1 (by decide)).2.2
      { initCallState "BOOKING" "English" "fever" with
          history := [Turn.mk "user" "hello"], isEnding := true, wsOpen := false }
      (by decide))
    simpa using h⟩

/-- C2 counterexample: after a BOOKING call whose report confirms the
booking, the next call is created with scenario CANCELLATION; when that call
ends without any conversation, the pending scenario is left untouched, so
the following session is created with scenario CANCELLATION again — the
claim demands BOOKING for a call that ends without conversation. -/
theorem scenario_alternation_counterexample :
    (endCallBeginG { initGState with
        activeCalls := [("c1", { initCallState "BOOKING" "English" "fever" with
          history := [Turn.mk "user" "hello"] })] } "c1").2
      = EndPhase.suspended { initCallState "BOOKING" "English" "fever" with
          history := [Turn.mk "user" "hello"], isEnding := true, wsOpen := false } ∧
    (endCallFinishG
        (endCallBeginG { initGState with
          activeCalls := [("c1", { initCallState "BOOKING" "English" "fever" with
            history := [Turn.mk "user" "hello"] })] } "c1").1 "c1"
        { initCallState "BOOKING" "English" "fever" with
          history := [Turn.mk "user" "hello"], isEnding := true, wsOpen := false }
        ⟨true⟩).nextScenario = "CANCELLATION" ∧
    lookupCall
        (startCallG
          (endCallFinishG
            (endCallBeginG { initGState with
              activeCalls := [("c1", { initCallState "BOOKING" "English" "fever" with
                history := [Turn.mk "user" "hello"] })] } "c1").1 "c1"
            { initCallState "BOOKING" "English" "fever" with
              history := [Turn.mk "user" "hello"], isEnding := true, wsOpen := false }
            ⟨true⟩) "c2" "fever") "c2"
      = some (initCallState "CANCELLATION" "English" "fever") ∧
    (endCallBeginG
        (startCallG
          (endCallFinishG
            (endCallBeginG { initGState with
              activeCalls := [("c1", { initCallState "BOOKING" "English" "fever" with
                history := [Turn.mk "user" "hello"] })] } "c1").1 "c1"
            { initCallState "BOOKING" "English" "fever" with
              history := [Turn.mk "user" "hello"], isEnding := true, wsOpen := false }
            ⟨true⟩) "c2" "fever") "c2").2 = EndPhase.finished ∧
    lookupCall
        (startCallG
          (endCallBeginG
            (startCallG
              (endCallFinishG
                (endCallBeginG { initGState with
                  activeCalls := [("c1", { initCallState "BOOKING" "English" "fever" with
                    history := [Turn.mk "user" "hello"] })] } "c1").1 "c1"
                { initCallState "BOOKING" "English" "fever" with
                  history := [Turn.mk "user" "hello"], isEnding := true, wsOpen := false }
                ⟨true⟩) "c2" "fever") "c2").1 "c3" "fever") "c3"
      = some (initCallState "CANCELLATION" "English" "fever") ∧
    (initCallState "CANCELLATION" "English" "fever").scenario ≠ "BOOKING" := by
  decide

/-! ## Watchdog invariant (C6)

`WatchdogInv` states that the pending watchdog timeouts of a session are
exactly tracked by the stored handle: when the handle is empty nothing is
pending, and when the handle holds `t` the only possibly pending timeout is
`t` (the handle may also be stale — pointing at a timeout that already fired
— in which case nothing is pending).  In particular at most one watchdog
timeout is ever pending. -/

def WatchdogInv (s : CallState) : Prop :=
  (s.watchdogTimeout = none → s.liveWatchdog = []) ∧
  (∀ t, s.watchdogTimeout = some t → s.liveWatchdog = [] ∨ s.liveWatchdog = [t])

theorem watchdogInv_length (s : CallState) (h : WatchdogInv s) :
    s.liveWatchdog.length ≤ 1 := by
  obtain ⟨h1, h2⟩ := h
  cases hwt : s.watchdogTimeout with
  | none => simp [h1 hwt]
  | some t => rcases h2 t hwt with h | h <;> simp [h]

theorem watchdogInv_of_eq (s s' : CallState) (h : WatchdogInv s)
    (h1 : s'.watchdogTimeout = s.watchdogTimeout) (h2 : s'.liveWatchdog = s.liveWatchdog) :
    WatchdogInv s' := by
  unfold WatchdogInv at h ⊢
  rw [h1, h2]
  exact h

theorem watchdogInv_resetWatchdogS (s : CallState) (reason : String) (h : WatchdogInv s) :
    WatchdogInv (resetWatchdogS s reason) := by
  obtain ⟨h1, h2⟩ := h
  cases hwt : s.watchdogTimeout with
  | none => simp [WatchdogInv, resetWatchdogS, hwt, h1 hwt]
  | some t => rcases h2 t hwt with h | h <;> simp [WatchdogInv, resetWatchdogS, hwt, h]

theorem watchdogInv_endCallBeginS (s : CallState) (h : WatchdogInv s) :
    WatchdogInv (endCallBeginS s) := by
  obtain ⟨h1, h2⟩ := h
  by_cases hend : s.isEnding = true
  · exact watchdogInv_of_eq s _ ⟨h1, h2⟩ (by simp [endCallBeginS, hend])
      (by simp [endCallBeginS, hend])
  · cases hwt : s.watchdogTimeout with
    | none => simp [WatchdogInv, endCallBeginS, hend, hwt, h1 hwt]
    | some t => rcases h2 t hwt with h | h <;> simp [WatchdogInv, endCallBeginS, hend, hwt, h]

theorem watchdogInv_playAIResponseS (s : CallState) (r : String) (h : WatchdogInv s) :
    WatchdogInv (playAIResponseS s r).state := by
  by_cases hend : s.isEnding = true
  · simpa [playAIResponseS, hend] using h
  · cases hws : s.wsOpen with
    | false =>
        refine watchdogInv_of_eq s _ h ?_ ?_ <;> simp [playAIResponseS, hend, hws]
    | true =>
        have h' : WatchdogInv
            { s with history := s.history ++ [Turn.mk "assistant" r], hasSpoken := true } :=
          watchdogInv_of_eq s _ h rfl rfl
        simpa [playAIResponseS, hend, hws] using
          watchdogInv_resetWatchdogS _ "Target bot hung (no response) for 45 seconds after AI spoke." h'

theorem watchdogInv_cycleFinally (s : CallState) (h : WatchdogInv s) :
    WatchdogInv (cycleFinally s) :=
  watchdogInv_of_eq s _ h (by simp [cycleFinally]) (by simp [cycleFinally])

theorem watchdogInv_interpretReply (s : CallState) (replyText : String) (otpReads : Nat)
    (h : WatchdogInv s) : WatchdogInv (interpretReply s replyText otpReads).state := by
  unfold interpretReply
  split_ifs
  · exact watchdogInv_cycleFinally s h
  · exact watchdogInv_cycleFinally _ (watchdogInv_of_eq s _ h rfl rfl)
  · exact watchdogInv_cycleFinally _ (watchdogInv_playAIResponseS s replyText h)

theorem watchdogInv_turnCycleBody (s : CallState) (transcript : String) (hallucinated : Bool)
    (llmReply : String) (h : WatchdogInv s) :
    WatchdogInv (turnCycleBody s transcript hallucinated llmReply).state := by
  unfold turnCycleBody
  split_ifs
  · exact watchdogInv_cycleFinally s h
  · exact watchdogInv_cycleFinally s h
  · exact watchdogInv_interpretReply _ _ _ (watchdogInv_of_eq s _ h rfl rfl)

theorem watchdogInv_handleIncomingAudio (s : CallState) (chunk rms : Nat)
    (h : WatchdogInv s) : WatchdogInv (handleIncomingAudio s chunk rms) := by
  obtain ⟨h1, h2⟩ := h
  by_cases hr : LOUDNESS_THRESHOLD < rms
  · cases hst : s.silenceTimer <;> cases hwt : s.watchdogTimeout
    · exact ⟨by simp [handleIncomingAudio, hr, hst, hwt, h1 hwt], by
        intro t ht
        simp [handleIncomingAudio, hr, hst, hwt] at ht⟩
    · rename_i t
      rcases h2 t hwt with hl | hl <;>
        exact ⟨by simp [handleIncomingAudio, hr, hst, hwt, hl], by
          intro u hu
          simp [handleIncomingAudio, hr, hst, hwt] at hu⟩
    · exact ⟨by simp [handleIncomingAudio, hr, hst, hwt, h1 hwt], by
        intro t ht
        simp [handleIncomingAudio, hr, hst, hwt] at ht⟩
    · rename_i _ t
      rcases h2 t hwt with hl | hl <;>
        exact ⟨by simp [handleIncomingAudio, hr, hst, hwt, hl], by
          intro u hu
          simp [handleIncomingAudio, hr, hst, hwt] at hu⟩
  · have hfields : (handleIncomingAudio s chunk rms).watchdogTimeout = s.watchdogTimeout ∧
        (handleIncomingAudio s chunk rms).liveWatchdog = s.liveWatchdog := by
      cases hst : s.silenceTimer <;> by_cases hh : s.hasSpoken = true <;>
        simp [handleIncomingAudio, hr, hst, hh]
    exact watchdogInv_of_eq s _ ⟨h1, h2⟩ hfields.1 hfields.2

theorem watchdogInv_triggerAIResponseS (s : CallState) (initialText llmReply : String)
    (h : WatchdogInv s) : WatchdogInv (triggerAIResponseS s initialText llmReply) := by
  unfold triggerAIResponseS
  split_ifs
  · exact h
  · exact watchdogInv_playAIResponseS _ _ (watchdogInv_of_eq s _ h rfl rfl)

theorem watchdogInv_silenceTimerFire (s : CallState) (t : Nat) (h : WatchdogInv s) :
    WatchdogInv (silenceTimerFire s t) := by
  unfold silenceTimerFire
  split_ifs
  · exact watchdogInv_of_eq s _ h rfl rfl
  · exact h

theorem watchdogInv_watchdogFireS (s : CallState) (t : Nat) (h : WatchdogInv s) :
    WatchdogInv (watchdogFireS s t) := by
  unfold watchdogFireS
  split_ifs with ht
  · refine watchdogInv_endCallBeginS _ ?_
    obtain ⟨h1, h2⟩ := h
    have herase : s.liveWatchdog.erase t = [] := by
      cases hwt : s.watchdogTimeout with
      | none => simp [h1 hwt]
      | some u =>
          rcases h2 u hwt with hl | hl
          · simp [hl]
          · have htu : t = u := by simpa [hl] using ht
            simp [hl, htu]
    constructor
    · intro _
      simpa using herase
    · intro u _
      left
      simpa using herase
  · exact h

theorem watchdogInv_step (s : CallState) (e : Ev) (h : WatchdogInv s) :
    WatchdogInv (step s e) := by
  cases e with
  | frame chunk rms => exact watchdogInv_handleIncomingAudio s chunk rms h
  | fire t => exact watchdogInv_silenceTimerFire s t h
  | finish transcript hallucinated llmReply =>
      unfold step
      split_ifs
      · exact h
      · exact watchdogInv_turnCycleBody s transcript hallucinated llmReply h
  | trigger initialText llmReply => exact watchdogInv_triggerAIResponseS s initialText llmReply h
  | wdogFire t => exact watchdogInv_watchdogFireS s t h
  | endBegin => exact watchdogInv_endCallBeginS s h

theorem watchdogInv_run (s : CallState) (evs : List Ev) (h : WatchdogInv s) :
    WatchdogInv (run s evs) := by
  induction evs generalizing s with
  | nil => simpa [run] using h
  | cons e evs ih => exact ih (step s e) (watchdogInv_step s e h)

theorem watchdogInv_initCallState (scenario lang symptom : String) :
    WatchdogInv (initCallState scenario lang symptom) :=
  ⟨fun _ => rfl, fun t ht => by simp [initCallState] at ht⟩

theorem watchdogFireS_observed (s : CallState) (t : Nat) (ht : t ∈ s.liveWatchdog) :
    (watchdogFireS s t).history
      = s.history ++ [Turn.mk "assistant" (autoTerminatedMsg s.wdogReason)] ∧
    (watchdogFireS s t).isEnding = true := by
  unfold watchdogFireS
  rw [if_pos ht]
  exact ⟨by rw [endCallBeginS_history], endCallBeginS_isEnding _⟩

/-! ## C6 -/

/-- C6: in every state reachable from a fresh session, at most one watchdog
timeout is pending; re-arming through `resetWatchdog` leaves at most one
pending (the prior instance is cancelled first); and whenever a pending
watchdog expires, a synthetic terminal turn recording the armed reason is
appended to the session's history and teardown is invoked (`isEnding`
becomes true). -/
theorem watchdog_at_most_one_and_fires (scenario lang symptom : String) (evs : List Ev) :
    (run (initCallState scenario lang symptom) evs).liveWatchdog.length ≤ 1 ∧
    (∀ reason,
      (resetWatchdogS (run (initCallState scenario lang symptom) evs) reason).liveWatchdog.length
        ≤ 1) ∧
    (∀ t, t ∈ (run (initCallState scenario lang symptom) evs).liveWatchdog →
      (watchdogFireS (run (initCallState scenario lang symptom) evs) t).history
        = (run (initCallState scenario lang symptom) evs).history
            ++ [Turn.mk "assistant"
                  (autoTerminatedMsg (run (initCallState scenario lang symptom) evs).wdogReason)] ∧
      (watchdogFireS (run (initCallState scenario lang symptom) evs) t).isEnding = true) := by
  have hinv := watchdogInv_run _ evs (watchdogInv_initCallState scenario lang symptom)
  exact ⟨watchdogInv_length _ hinv,
    fun reason => watchdogInv_length _ (watchdogInv_resetWatchdogS _ reason hinv),
    fun t ht => watchdogFireS_observed _ t ht⟩

/-- Witness for C6: after one AI-initiative turn, exactly one watchdog is
pending; its expiry appends the terminal turn and starts teardown. -/
theorem watchdog_at_most_one_and_fires_witness :
    (0 ∈ (run (initCallState "BOOKING" "English" "fever")
        [Ev.trigger "hi" "reply"]).liveWatchdog) ∧
    (watchdogFireS (run (initCallState "BOOKING" "English" "fever")
        [Ev.trigger "hi" "reply"]) 0).isEnding = true :=
  ⟨by decide,
   ((watchdog_at_most_one_and_fires "BOOKING" "English" "fever"
      [Ev.trigger "hi" "reply"]).2.2 0 (by decide)).2⟩

/-! ## Single-flight invariant (C1)

`SingleFlightInv` states that at most one turn cycle is in flight, and binds
the possible silence-timer configurations: while a cycle is in flight the
stored handle is stale-but-nonempty (which is what blocks re-arming) and no
silence timeout is pending; while idle the stored handle exactly tracks the
single pending timeout (or both are empty).  A loud frame delivered during
an in-flight cycle breaks the stale-handle block, so the invariant is only
preserved for traces in which loud frames arrive while no cycle is in
flight (`evAllowed` / `allowedRun`); the counterexample below shows the
unrestricted claim fails. -/

def SingleFlightInv (s : CallState) : Prop :=
  s.cyclesInFlight ≤ 1 ∧
  (s.cyclesInFlight = 1 → s.silenceTimer ≠ none ∧ s.liveSilence = []) ∧
  (s.cyclesInFlight = 0 →
    ((∃ t, s.silenceTimer = some t ∧ s.liveSilence = [t]) ∨
     (s.silenceTimer = none ∧ s.liveSilence = [])))

theorem singleFlightInv_of_eq (s s' : CallState) (h : SingleFlightInv s)
    (h1 : s'.silenceTimer = s.silenceTimer) (h2 : s'.liveSilence = s.liveSilence)
    (h3 : s'.cyclesInFlight = s.cyclesInFlight) : SingleFlightInv s' := by
  unfold SingleFlightInv at h ⊢
  rw [h1, h2, h3]
  exact h

theorem resetWatchdogS_silence (s : CallState) (reason : String) :
    (resetWatchdogS s reason).silenceTimer = s.silenceTimer ∧
    (resetWatchdogS s reason).liveSilence = s.liveSilence ∧
    (resetWatchdogS s reason).cyclesInFlight = s.cyclesInFlight := by
  cases hwt : s.watchdogTimeout <;> simp [resetWatchdogS, hwt]

theorem playAIResponseS_silence (s : CallState) (r : String) :
    (playAIResponseS s r).state.silenceTimer = s.silenceTimer ∧
    (playAIResponseS s r).state.liveSilence = s.liveSilence ∧
    (playAIResponseS s r).state.cyclesInFlight = s.cyclesInFlight := by
  by_cases hend : s.isEnding = true <;> cases hws : s.wsOpen <;>
    cases hwt : s.watchdogTimeout <;>
    simp [playAIResponseS, resetWatchdogS, hend, hws, hwt]

theorem interpretReply_silence (s : CallState) (r : String) (o : Nat) :
    (interpretReply s r o).state.silenceTimer = none ∧
    (interpretReply s r o).state.liveSilence = s.liveSilence ∧
    (interpretReply s r o).state.cyclesInFlight = s.cyclesInFlight - 1 := by
  unfold interpretReply
  split_ifs
  · simp [cycleFinally]
  · simp [cycleFinally]
  · have hp := playAIResponseS_silence s r
    simp [cycleFinally, hp.2.1, hp.2.2]

theorem turnCycleBody_silence (s : CallState) (tr : String) (hl : Bool) (rep : String) :
    (turnCycleBody s tr hl rep).state.silenceTimer = none ∧
    (turnCycleBody s tr hl rep).state.liveSilence = s.liveSilence ∧
    (turnCycleBody s tr hl rep).state.cyclesInFlight = s.cyclesInFlight - 1 := by
  unfold turnCycleBody
  split_ifs
  · simp [cycleFinally]
  · simp [cycleFinally]
  · exact interpretReply_silence _ _ _

theorem triggerAIResponseS_silence (s : CallState) (a b : String) :
    (triggerAIResponseS s a b).silenceTimer = s.silenceTimer ∧
    (triggerAIResponseS s a b).liveSilence = s.liveSilence ∧
    (triggerAIResponseS s a b).cyclesInFlight = s.cyclesInFlight := by
  unfold triggerAIResponseS
  split_ifs
  · exact ⟨rfl, rfl, rfl⟩
  · exact playAIResponseS_silence _ _

theorem endCallBeginS_silence (s : CallState) :
    (endCallBeginS s).silenceTimer = s.silenceTimer ∧
    (endCallBeginS s).liveSilence = s.liveSilence ∧
    (endCallBeginS s).cyclesInFlight = s.cyclesInFlight := by
  by_cases hend : s.isEnding = true <;> cases hwt : s.watchdogTimeout <;>
    simp [endCallBeginS, hend, hwt]

theorem watchdogFireS_silence (s : CallState) (t : Nat) :
    (watchdogFireS s t).silenceTimer = s.silenceTimer ∧
    (watchdogFireS s t).liveSilence = s.liveSilence ∧
    (watchdogFireS s t).cyclesInFlight = s.cyclesInFlight := by
  unfold watchdogFireS
  split_ifs
  · exact endCallBeginS_silence _
  · exact ⟨rfl, rfl, rfl⟩

theorem singleFlightInv_step (s : CallState) (e : Ev) (h : SingleFlightInv s)
    (ha : evAllowed s e = true) : SingleFlightInv (step s e) := by
  obtain ⟨hle, hone, hzero⟩ := h
  cases e with
  | frame chunk rms =>
      show SingleFlightInv (handleIncomingAudio s chunk rms)
      by_cases hr : LOUDNESS_THRESHOLD < rms
      · have hcyc : s.cyclesInFlight = 0 := by
          simp [evAllowed] at ha
          rcases ha with ha | ha
          · omega
          · exact ha
        rcases hzero hcyc with ⟨t, hst, hlv⟩ | ⟨hst, hlv⟩
        · have hfields : (handleIncomingAudio s chunk rms).silenceTimer = none ∧
              (handleIncomingAudio s chunk rms).liveSilence = s.liveSilence.erase t ∧
              (handleIncomingAudio s chunk rms).cyclesInFlight = s.cyclesInFlight := by
            cases hwt : s.watchdogTimeout <;> simp [handleIncomingAudio, hr, hst, hwt]
          refine ⟨?_, ?_, ?_⟩
          · rw [hfields.2.2]; omega
          · intro hx; rw [hfields.2.2, hcyc] at hx; omega
          · intro _
            right
            exact ⟨hfields.1, by rw [hfields.2.1, hlv]; simp⟩
        · have hfields : (handleIncomingAudio s chunk rms).silenceTimer = none ∧
              (handleIncomingAudio s chunk rms).liveSilence = s.liveSilence ∧
              (handleIncomingAudio s chunk rms).cyclesInFlight = s.cyclesInFlight := by
            cases hwt : s.watchdogTimeout <;> simp [handleIncomingAudio, hr, hst, hwt]
          refine ⟨?_, ?_, ?_⟩
          · rw [hfields.2.2]; omega
          · intro hx; rw [hfields.2.2, hcyc] at hx; omega
          · intro _
            right
            exact ⟨hfields.1, by rw [hfields.2.1, hlv]⟩
      · by_cases harm : s.hasSpoken = true ∧ s.silenceTimer = none
        · have hfields : (handleIncomingAudio s chunk rms).silenceTimer = some s.nextTimerId ∧
              (handleIncomingAudio s chunk rms).liveSilence
                = s.liveSilence ++ [s.nextTimerId] ∧
              (handleIncomingAudio s chunk rms).cyclesInFlight = s.cyclesInFlight := by
            simp [handleIncomingAudio, hr, harm.1, harm.2]
          have hcyc : s.cyclesInFlight = 0 := by
            rcases Nat.eq_or_lt_of_le hle with h1 | h1
            · exact absurd harm.2 (hone h1).1
            · omega
          rcases hzero hcyc with ⟨t, hst, _⟩ | ⟨_, hlv⟩
          · rw [harm.2] at hst
            exact absurd hst (by simp)
          · refine ⟨?_, ?_, ?_⟩
            · rw [hfields.2.2]; omega
            · intro hx; rw [hfields.2.2, hcyc] at hx; omega
            · intro _
              left
              exact ⟨s.nextTimerId, hfields.1, by rw [hfields.2.1, hlv]; simp⟩
        · have hfields : (handleIncomingAudio s chunk rms).silenceTimer = s.silenceTimer ∧
              (handleIncomingAudio s chunk rms).liveSilence = s.liveSilence ∧
              (handleIncomingAudio s chunk rms).cyclesInFlight = s.cyclesInFlight := by
            cases hsp : s.hasSpoken with
            | false => simp [handleIncomingAudio, hr, hsp]
            | true =>
                have hne : s.silenceTimer ≠ none := fun hnone => harm ⟨hsp, hnone⟩
                cases hst : s.silenceTimer with
                | none => exact absurd hst hne
                | some t => simp [handleIncomingAudio, hr, hsp, hst]
          exact singleFlightInv_of_eq s _ ⟨hle, hone, hzero⟩ hfields.1 hfields.2.1 hfields.2.2
  | fire t =>
      show SingleFlightInv (silenceTimerFire s t)
      unfold silenceTimerFire
      split_ifs with ht
      · have hcyc : s.cyclesInFlight = 0 := by
          by_contra hne
          have h1 : s.cyclesInFlight = 1 := by omega
          have hempty := (hone h1).2
          rw [hempty] at ht
          simp at ht
        rcases hzero hcyc with ⟨u, hst, hlv⟩ | ⟨_, hlv⟩
        · have htu : t = u := by
            rw [hlv] at ht
            simpa using ht
          refine ⟨by simp [hcyc], fun _ => ⟨by simp [hst], by simp [hlv, htu]⟩, ?_⟩
          · intro hx
            simp [hcyc] at hx
        · rw [hlv] at ht
          simp at ht
      · exact ⟨hle, hone, hzero⟩
  | finish tr hal rep =>
      unfold step
      split_ifs with hc
      · exact ⟨hle, hone, hzero⟩
      · have h1 : s.cyclesInFlight = 1 := by omega
        have hfields := turnCycleBody_silence s tr hal rep
        refine ⟨?_, ?_, ?_⟩
        · rw [hfields.2.2]; omega
        · intro hx; rw [hfields.2.2, h1] at hx; omega
        · intro _
          right
          exact ⟨hfields.1, by rw [hfields.2.1, (hone h1).2]⟩
  | trigger a b =>
      have hf := triggerAIResponseS_silence s a b
      exact singleFlightInv_of_eq s _ ⟨hle, hone, hzero⟩ hf.1 hf.2.1 hf.2.2
  | wdogFire t =>
      have hf := watchdogFireS_silence s t
      exact singleFlightInv_of_eq s _ ⟨hle, hone, hzero⟩ hf.1 hf.2.1 hf.2.2
  | endBegin =>
      have hf := endCallBeginS_silence s
      exact singleFlightInv_of_eq s _ ⟨hle, hone, hzero⟩ hf.1 hf.2.1 hf.2.2

theorem singleFlightInv_run (s : CallState) (evs : List Ev) (h : SingleFlightInv s)
    (ha : allowedRun s evs = true) : SingleFlightInv (run s evs) := by
  induction evs generalizing s with
  | nil => simpa [run] using h
  | cons e evs ih =>
      rw [allowedRun, Bool.and_eq_true] at ha
      exact ih (step s e) (singleFlightInv_step s e h ha.1) ha.2

theorem singleFlightInv_initCallState (scenario lang symptom : String) :
    SingleFlightInv (initCallState scenario lang symptom) :=
  ⟨by simp [initCallState], fun h => by simp [initCallState] at h,
   fun _ => Or.inr ⟨rfl, rfl⟩⟩

/-! ## C1 -/

/-- C1 (amended): along every event trace from a fresh session in which loud
frames arrive only while no cycle is in flight, at most one
transcription/response cycle is ever in flight: a quiet frame can never arm
a second boundary timer during an active cycle (the cycle still holds the
fired timer's handle, which blocks re-arming), so no second boundary can
fire.  A loud frame delivered during an active cycle voids this guard — see
the counterexample. -/
theorem at_most_one_cycle_in_flight_amended (scenario lang symptom : String)
    (evs : List Ev)
    (ha : allowedRun (initCallState scenario lang symptom) evs = true) :
    (run (initCallState scenario lang symptom) evs).cyclesInFlight ≤ 1 :=
  (singleFlightInv_run _ evs (singleFlightInv_initCallState scenario lang symptom) ha).1

/-- Witness for the amended C1: a full speech episode — loud frame, quiet
frame (arming the boundary timer), boundary expiry, cycle completion, and a
second episode — never has more than one cycle in flight. -/
theorem at_most_one_cycle_in_flight_amended_witness :
    allowedRun (initCallState "BOOKING" "English" "fever")
        [Ev.frame 0 400, Ev.frame 1 0, Ev.fire 0,
         Ev.finish "hello there" false "ok", Ev.frame 2 400, Ev.frame 3 0,
         Ev.fire 1] = true ∧
    (run (initCallState "BOOKING" "English" "fever")
        [Ev.frame 0 400, Ev.frame 1 0, Ev.fire 0,
         Ev.finish "hello there" false "ok", Ev.frame 2 400, Ev.frame 3 0,
         Ev.fire 1]).cyclesInFlight ≤ 1 :=
  ⟨by decide,
   at_most_one_cycle_in_flight_amended "BOOKING" "English" "fever"
     [Ev.frame 0 400, Ev.frame 1 0, Ev.fire 0,
      Ev.finish "hello there" false "ok", Ev.frame 2 400, Ev.frame 3 0,
      Ev.fire 1] (by decide)⟩

/-- C1 counterexample: the unrestricted claim is false.  From a fresh
session: a loud frame, a quiet frame (boundary timer 0 armed), expiry of
timer 0 (cycle one starts, `isProcessing = true`).  While that cycle is
still in flight, a loud frame nulls the stale stored handle and sets
`hasSpoken`, the next quiet frame therefore arms a second boundary timer,
and its expiry starts a second transcription/response cycle: `isProcessing`
was true throughout, yet a second boundary fired — two cycles are in flight
at once. -/
theorem second_boundary_fires_while_processing :
    (run (initCallState "BOOKING" "English" "fever")
        [Ev.frame 0 400, Ev.frame 1 0, Ev.fire 0, Ev.frame 2 400,
         Ev.frame 3 0]).isProcessing = true ∧
    (run (initCallState "BOOKING" "English" "fever")
        [Ev.frame 0 400, Ev.frame 1 0, Ev.fire 0, Ev.frame 2 400,
         Ev.frame 3 0]).cyclesInFlight = 1 ∧
    1 ∈ (run (initCallState "BOOKING" "English" "fever")
        [Ev.frame 0 400, Ev.frame 1 0, Ev.fire 0, Ev.frame 2 400,
         Ev.frame 3 0]).liveSilence ∧
    (run (initCallState "BOOKING" "English" "fever")
        [Ev.frame 0 400, Ev.frame 1 0, Ev.fire 0, Ev.frame 2 400,
         Ev.frame 3 0, Ev.fire 1]).cyclesInFlight = 2 := by
  decide

end VoiceBot
